import Mathlib

/-!
Verification development for the issue endpoints of
src/apiserver/plane/app/views/issue/base.py.

The file shallowly embeds the request handlers of that module over an
explicit relational store.  Pure request handling (parameter parsing,
queryset predicates, annotation aggregates, branch structure) is translated
directly from the source; collaborators that live outside the file
(the soft-delete manager, the cursor paginator, model defaults) are
modelled from the specification and marked as such in their doc comments.
Ids of issues are strings (UUID literals in the source), ids of users and
modules are naturals.
-/

/-- Row of the Issue table, restricted to the fields the handlers in
base.py read: primary key, workspace slug, project id, creator,
update timestamp and the soft-delete marker deleted_at. -/
structure IssueRec where
  id : String
  workspaceSlug : String
  projectId : Nat
  createdBy : Nat
  updatedAt : Nat
  deletedAt : Option Nat
deriving DecidableEq

/-- Row of the ProjectMember table as read by IssueViewSet.list
(lines 266-272): workspace slug, project, member, role and is_active. -/
structure ProjectMemberRec where
  workspaceSlug : String
  projectId : Nat
  memberId : Nat
  role : Nat
  isActive : Bool
deriving DecidableEq

/-- Row of the Module table: id and the archived_at marker used by the
module_ids annotations. -/
structure ModuleRec where
  id : Nat
  archivedAt : Option Nat
deriving DecidableEq

/-- Link row issue_module joining an issue to a module. -/
structure IssueModuleRec where
  issueId : String
  moduleId : Nat
deriving DecidableEq

/-- Link row joining an issue to an assignee user. -/
structure IssueAssigneeRec where
  issueId : String
  assigneeId : Nat
deriving DecidableEq

/-- Per-user per-project display property record
(model IssueUserProperty): the three JSON blobs the patch handler
touches, keyed by user and project. -/
structure IssueUserPropertyRec where
  userId : Nat
  projectId : Nat
  filters : String
  display_filters : String
  display_properties : String
deriving DecidableEq

/-- The relational store visible to the handlers. -/
structure Store where
  issues : List IssueRec
  members : List ProjectMemberRec
  modules : List ModuleRec
  issueModules : List IssueModuleRec
  issueAssignees : List IssueAssigneeRec
deriving DecidableEq

/-- Modelled from the spec: the manager Issue.issue_objects is defined
outside this file; the spec states the invariant that soft-deleted items
are excluded from default queries, so the manager is modelled as the
store's issues with soft-deleted rows (deleted_at set) removed. -/
def issue_objects (issues : List IssueRec) : List IssueRec :=
  issues.filter (fun i => i.deletedAt.isNone)

/-- Modelled from the spec: Issue.objects, the default manager used by
IssueViewSet.destroy (line 582), is defined outside this file; per the
spec invariant that soft-deleted items are excluded from default queries
it is modelled exactly like issue_objects. -/
def defaultObjects (issues : List IssueRec) : List IssueRec :=
  issues.filter (fun i => i.deletedAt.isNone)

/-- Response of IssueListEndpoint.get: either the 400 error dict or the
200 list of serialized issues. -/
inductive ListGetResp where
  | badRequest (msg : String)
  | ok (issues : List IssueRec)
deriving DecidableEq

/-- Helper of splitComma: consumes the remaining characters, carrying
the characters of the current chunk in reverse. -/
def splitCommaAux : List Char → List Char → List String
  | [], acc => [String.mk acc.reverse]
  | c :: rest, acc =>
    if c = ',' then String.mk acc.reverse :: splitCommaAux rest []
    else splitCommaAux rest (c :: acc)

/-- Python str.split(",") with a one-character separator: the chunks
between commas, in order, with empty chunks kept; the empty string
yields the single empty chunk, matching Python. -/
def splitComma (s : String) : List String := splitCommaAux s.toList []

/-- IssueListEndpoint.get (lines 65-176).  The issues query parameter is
required (falsy values, absent or empty string, give a 400); its
comma-separated entries are split and empty strings dropped (line 74-76);
the queryset is issue_objects filtered by workspace slug, project id and
pk__in over the surviving entries (lines 78-81).  The external
issue_filters predicate is abstracted as flt; ordering, grouping and
serialization do not change the returned set of rows and are elided. -/
def issueListGet (store : Store) (slug : String) (pid : Nat)
    (issuesParam : Option String) (flt : IssueRec → Bool) : ListGetResp :=
  match issuesParam with
  | none => .badRequest "Issues are required"
  | some s =>
    if s = "" then .badRequest "Issues are required"
    else
      let issue_ids := (splitComma s).filter (fun v => v != "")
      let queryset := (issue_objects store.issues).filter
        (fun i => i.workspaceSlug == slug && i.projectId == pid
          && issue_ids.contains i.id)
      .ok (queryset.filter flt)

/-- IssueViewSet.get_queryset (lines 200-231): issue_objects filtered by
project id then workspace slug; the annotations added there are not read
by the claims under proof and are elided. -/
def viewSetQueryset (store : Store) (slug : String) (pid : Nat) : List IssueRec :=
  ((issue_objects store.issues).filter (fun i => i.projectId == pid)).filter
    (fun i => i.workspaceSlug == slug)

/-- The membership test of IssueViewSet.list lines 266-272: an active
ProjectMember row for this workspace slug, project and user with role
value 5. -/
def hasRestrictedRole (store : Store) (slug : String) (pid : Nat)
    (userId : Nat) : Bool :=
  store.members.any (fun m =>
    m.workspaceSlug == slug && m.projectId == pid && m.memberId == userId
      && m.role == 5 && m.isActive)

/-- Error message of the group_by == sub_group_by validation
(lines 278-283). -/
def groupSameError : String :=
  "Group by and sub group by cannot have same parameters"

/-- Which paginator IssueViewSet.list hands the queryset to. -/
inductive PaginatorKind where
  | flat
  | grouped
  | subGrouped
deriving DecidableEq

/-- Response of IssueViewSet.list: the 400 validation error or a
paginated page over the final queryset. -/
inductive ViewSetListResp where
  | badRequest (msg : String)
  | page (kind : PaginatorKind) (issues : List IssueRec)
deriving DecidableEq

/-- Issues carried by a list response; the error response carries none. -/
def ViewSetListResp.issuesOf : ViewSetListResp → List IssueRec
  | .badRequest _ => []
  | .page _ l => l

/-- Whether the response is the 400 validation error. -/
def ViewSetListResp.isError : ViewSetListResp → Bool
  | .badRequest _ => true
  | .page _ _ => false

/-- IssueViewSet.list (lines 235-354).  The external issue_filters
predicate is abstracted as flt; group_by and sub_group_by are the raw
query parameter values, with the empty string standing for an absent or
falsy parameter (request.GET.get returns False when absent, and Python
truthiness treats the empty string like False).  After the queryset is
built and the role-5 narrowing of lines 266-273 is applied, the handler
branches exactly as the source does: truthy group_by and truthy
sub_group_by that are equal return the 400 error before any paginate
call; otherwise one paginate call is issued (sub-grouped, grouped or
flat).  Ordering, grouping and pagination are delegated to collaborators
outside this file which, per the spec, preserve the underlying set of
rows, so the page carries the final queryset.  The second component
counts the paginate calls issued. -/
def viewSetList (store : Store) (slug : String) (pid : Nat) (userId : Nat)
    (flt : IssueRec → Bool) (group_by sub_group_by : String) :
    ViewSetListResp × Nat :=
  let issueQs := (viewSetQueryset store slug pid).filter flt
  let issueQs :=
    if hasRestrictedRole store slug pid userId then
      issueQs.filter (fun i => i.createdBy == userId)
    else issueQs
  if group_by ≠ "" then
    if sub_group_by ≠ "" then
      if group_by = sub_group_by then (.badRequest groupSameError, 0)
      else (.page .subGrouped issueQs, 1)
    else (.page .grouped issueQs, 1)
  else (.page .flat issueQs, 1)

/-- Resolution of a single issue through
IssueViewSet.get_queryset().filter(pk=pk).first(), the lookup used by
retrieve (lines 435-437) and partial_update (lines 516-546). -/
def viewSetPkLookup (store : Store) (slug : String) (pid : Nat)
    (pk : String) : Option IssueRec :=
  (viewSetQueryset store slug pid).find? (fun i => i.id == pk)

/-- Resolution of the target of IssueViewSet.destroy (lines 582-584):
Issue.objects.get(workspace__slug=slug, project_id=project_id, pk=pk),
modelled as a lookup in the default manager. -/
def destroyLookup (store : Store) (slug : String) (pid : Nat)
    (pk : String) : Option IssueRec :=
  (defaultObjects store.issues).find? (fun i =>
    i.workspaceSlug == slug && i.projectId == pid && i.id == pk)

/-- The assignee_ids annotation: ArrayAgg of assignees__id, distinct,
filtered to non-null ids whose user has an is_active ProjectMember row.
The identical expression appears in IssueViewSet.retrieve
(lines 447-455), IssueViewSet.partial_update (lines 527-535) and
IssuePaginatedViewSet.list (lines 762-770). -/
def assigneeIdsAgg (store : Store) (issueId : String) : List Nat :=
  (((store.issueAssignees.filter (fun a =>
      a.issueId == issueId
        && store.members.any (fun m => m.memberId == a.assigneeId && m.isActive))).map
    IssueAssigneeRec.assigneeId)).dedup

/-- The module_ids annotation of IssueViewSet.retrieve (lines 456-464)
and IssuePaginatedViewSet.list (lines 771-779): ArrayAgg of
issue_module__module_id, distinct, filtered to non-null module ids whose
module has archived_at null. -/
def moduleIdsActiveAgg (store : Store) (issueId : String) : List Nat :=
  (((store.issueModules.filter (fun l =>
      l.issueId == issueId
        && store.modules.any (fun m => m.id == l.moduleId && m.archivedAt.isNone))).map
    IssueModuleRec.moduleId)).dedup

/-- The module_ids annotation of IssueViewSet.partial_update
(lines 536-543): ArrayAgg of issue_module__module_id, distinct, filtered
only to non-null module ids; unlike the retrieve and paginated-list
annotations it carries no archived_at filter. -/
def moduleIdsUpdateAgg (store : Store) (issueId : String) : List Nat :=
  ((store.issueModules.filter (fun l => l.issueId == issueId)).map
    IssueModuleRec.moduleId).dedup

/-- Modelled from the spec: the default values of an IssueUserProperty
record live in the model definition outside this file; the spec only
requires that a fresh record with default values exists after
get_or_create, so the defaults are fixed opaque blobs. -/
def defaultIssueUserProperty (uid pid : Nat) : IssueUserPropertyRec :=
  { userId := uid, projectId := pid, filters := "default",
    display_filters := "default", display_properties := "default" }

/-- Lookup of the IssueUserProperty row for a user and project, the
queryset behind objects.get and objects.get_or_create in
IssueUserDisplayPropertyEndpoint (lines 604-607 and 624-626). -/
def findUserProperty (props : List IssueUserPropertyRec) (uid pid : Nat) :
    Option IssueUserPropertyRec :=
  props.find? (fun p => p.userId == uid && p.projectId == pid)

/-- Result of IssueUserDisplayPropertyEndpoint.get: the serialized
record, the HTTP status and the property table after the request. -/
structure DisplayPropResult where
  record : IssueUserPropertyRec
  httpStatus : Nat
  state : List IssueUserPropertyRec
deriving DecidableEq

/-- IssueUserDisplayPropertyEndpoint.get (lines 623-628):
get_or_create on (user, project) followed by a 200 response with the
record; creation inserts the default record. -/
def displayPropertyGet (props : List IssueUserPropertyRec) (uid pid : Nat) :
    DisplayPropResult :=
  match findUserProperty props uid pid with
  | some p => { record := p, httpStatus := 200, state := props }
  | none =>
    { record := defaultIssueUserProperty uid pid, httpStatus := 200,
      state := defaultIssueUserProperty uid pid :: props }

/-- Payload of IssueUserDisplayPropertyEndpoint.patch: each key may be
absent from request.data (absent keys leave the stored field alone,
lines 609-617). -/
structure DisplayPatchPayload where
  filters : Option String
  display_filters : Option String
  display_properties : Option String
deriving DecidableEq

/-- IssueUserDisplayPropertyEndpoint.patch (lines 603-620): the record
is resolved with objects.get (none models the DoesNotExist error when no
record exists); each of the three fields is set to the payload value
when the key is present and kept otherwise (request.data.get with the
current value as default); save writes the record back in place. -/
def displayPropertyPatch (props : List IssueUserPropertyRec) (uid pid : Nat)
    (payload : DisplayPatchPayload) :
    Option (IssueUserPropertyRec × List IssueUserPropertyRec) :=
  match findUserProperty props uid pid with
  | none => none
  | some p =>
    let p1 : IssueUserPropertyRec :=
      { p with
        filters := payload.filters.getD p.filters,
        display_filters := payload.display_filters.getD p.display_filters,
        display_properties := payload.display_properties.getD p.display_properties }
    some (p1, props.map (fun q =>
      if q.userId == uid && q.projectId == pid then p1 else q))

/-- Response of BulkDeleteIssuesEndpoint.delete; the 200 body is the
message string formatting the count of deleted issues, modelled as that
count. -/
inductive BulkDeleteResp where
  | badRequest (msg : String)
  | ok (count : Nat)
deriving DecidableEq

/-- The queryset of BulkDeleteIssuesEndpoint.delete (lines 642-644):
issue_objects filtered by workspace slug, project id and pk__in over the
submitted ids. -/
def bulkDeleteQueryset (store : Store) (slug : String) (pid : Nat)
    (issue_ids : List String) : List IssueRec :=
  (issue_objects store.issues).filter (fun i =>
    i.workspaceSlug == slug && i.projectId == pid
      && issue_ids.contains i.id)

/-- BulkDeleteIssuesEndpoint.delete (lines 633-653): an empty issue_ids
payload is a 400 and leaves the store alone; otherwise the matched
queryset is counted first and then deleted.  The delete itself is
delegated to the storage collaborator (spec: the engine only computes
the target id set and delegates the atomic delete); it is modelled as
removing every issue satisfying the queryset predicate from the store. -/
def bulkDeleteRun (store : Store) (slug : String) (pid : Nat)
    (issue_ids : List String) : BulkDeleteResp × Store :=
  if issue_ids.length = 0 then
    (.badRequest "Issue IDs are required", store)
  else
    let issues := bulkDeleteQueryset store slug pid issue_ids
    let total_issues := issues.length
    (.ok total_issues,
     { store with
        issues := store.issues.filter (fun i =>
          !(i.deletedAt.isNone && i.workspaceSlug == slug
              && i.projectId == pid && issue_ids.contains i.id)) })

/-- Ascending order on the updated_at column, the ordering requested by
IssuePaginatedViewSet.list through order_by("updated_at")
(lines 743-746). -/
def updLe (a b : IssueRec) : Prop := a.updatedAt ≤ b.updatedAt

instance : DecidableRel updLe := fun a b => Nat.decLe a.updatedAt b.updatedAt

instance : IsTotal IssueRec updLe := ⟨fun a b => Nat.le_total a.updatedAt b.updatedAt⟩

instance : IsTrans IssueRec updLe := ⟨fun _ _ _ h h2 => Nat.le_trans h h2⟩

/-- Issues of one project in one workspace through issue_objects, the
base collection of IssuePaginatedViewSet (lines 662-664 and 743-745). -/
def projectIssuesQs (store : Store) (slug : String) (pid : Nat) : List IssueRec :=
  (issue_objects store.issues).filter (fun i =>
    i.workspaceSlug == slug && i.projectId == pid)

/-- The ordered, optionally updated_at__gte filtered queryset built by
IssuePaginatedViewSet.list (lines 743-751): order_by("updated_at")
ascending, then, when the updated_at__gte parameter is present, only
issues with updated_at at least that value.  The database sort is
modelled with insertion sort; the annotations added afterwards do not
change the row set. -/
def paginatedSyncQueryset (store : Store) (slug : String) (pid : Nat)
    (updatedSince : Option Nat) : List IssueRec :=
  let qs := List.insertionSort updLe (projectIssuesQs store slug pid)
  match updatedSince with
  | none => qs
  | some t => qs.filter (fun i => decide (t ≤ i.updatedAt))

/-- Modelled from the spec: the cursor paginator (paginate in
plane.utils.global_paginator, outside this file) returns one bounded
contiguous slice of the ordered queryset per cursor; a page at offset o
of size s is the slice drop o, take s. -/
def syncPage (qs : List IssueRec) (offset size : Nat) : List IssueRec :=
  (qs.drop offset).take size

/-- Concrete issue of project 1, created by user 7. -/
def demoIssueA : IssueRec :=
  { id := "a", workspaceSlug := "w", projectId := 1, createdBy := 7,
    updatedAt := 10, deletedAt := none }

/-- Concrete issue of project 1, created by user 8. -/
def demoIssueB : IssueRec :=
  { id := "b", workspaceSlug := "w", projectId := 1, createdBy := 8,
    updatedAt := 5, deletedAt := none }

/-- Concrete soft-deleted issue of project 1. -/
def demoIssueDel : IssueRec :=
  { id := "d", workspaceSlug := "w", projectId := 1, createdBy := 7,
    updatedAt := 3, deletedAt := some 99 }

/-- Concrete issue of project 2. -/
def demoIssueOther : IssueRec :=
  { id := "o", workspaceSlug := "w", projectId := 2, createdBy := 8,
    updatedAt := 4, deletedAt := none }

/-- Concrete store used by the witnesses and counterexamples: workspace
"w" holds projects 1 and 2; user 7 is an active role-5 member of
project 1; module 1 is archived, module 2 is not, and issue "a" is
linked to both; user 7 is assigned to issue "a". -/
def demoStore : Store :=
  { issues := [demoIssueA, demoIssueB, demoIssueDel, demoIssueOther],
    members := [{ workspaceSlug := "w", projectId := 1, memberId := 7,
                  role := 5, isActive := true }],
    modules := [{ id := 1, archivedAt := some 5 }, { id := 2, archivedAt := none }],
    issueModules := [{ issueId := "a", moduleId := 1 },
                     { issueId := "a", moduleId := 2 }],
    issueAssignees := [{ issueId := "a", assigneeId := 7 }] }

/-- Trivial filter accepting every issue, standing for an empty
issue_filters parameter set. -/
def allIssues : IssueRec → Bool := fun _ => true

/-- Concrete display-property table holding records of users 7 and 8 in
project 1. -/
def demoProps : List IssueUserPropertyRec :=
  [{ userId := 7, projectId := 1, filters := "f1",
     display_filters := "df1", display_properties := "dp1" },
   { userId := 8, projectId := 1, filters := "f2",
     display_filters := "df2", display_properties := "dp2" }]

theorem viewSetList_page_eq (store : Store) (slug : String) (pid uid : Nat)
    (flt : IssueRec → Bool) (g sg : String) (k : PaginatorKind)
    (l : List IssueRec)
    (h : (viewSetList store slug pid uid flt g sg).1 = .page k l) :
    l = (if hasRestrictedRole store slug pid uid then
          ((viewSetQueryset store slug pid).filter flt).filter
            (fun i => i.createdBy == uid)
         else (viewSetQueryset store slug pid).filter flt) := by
  simp only [viewSetList] at h
  split_ifs at h ⊢ <;> simp_all

theorem viewSetList_same_group_error (store : Store) (slug : String)
    (pid uid : Nat) (flt : IssueRec → Bool) (g sg : String)
    (_hg : g ≠ "") (hsg : sg ≠ "") (heq : g = sg) :
    viewSetList store slug pid uid flt g sg = (.badRequest groupSameError, 0) := by
  simp [viewSetList, hsg, heq]

theorem viewSetList_no_group_no_error (store : Store) (slug : String)
    (pid uid : Nat) (flt : IssueRec → Bool) (g sg : String)
    (h : g = "" ∨ sg = "") :
    (viewSetList store slug pid uid flt g sg).1.isError = false := by
  simp only [viewSetList]
  rcases h with h | h <;> subst h <;>
    split_ifs <;> simp_all [ViewSetListResp.isError]

/-- C1: in IssueViewSet.list, a requester holding an active project
membership with role value 5 in the requested project has the returned
issue list narrowed to issues whose created_by is the requester, while a
requester without such a membership receives the filtered queryset with
no creator narrowing. -/
theorem role5_membership_narrows_list (store : Store) (slug : String)
    (pid uid : Nat) (flt : IssueRec → Bool) (g sg : String) :
    (hasRestrictedRole store slug pid uid = true →
      ∀ i ∈ (viewSetList store slug pid uid flt g sg).1.issuesOf,
        i.createdBy = uid) ∧
    (hasRestrictedRole store slug pid uid = false →
      ∀ k l, (viewSetList store slug pid uid flt g sg).1 = .page k l →
        l = (viewSetQueryset store slug pid).filter flt) := by
  constructor
  · intro hR i hi
    rcases hresp : (viewSetList store slug pid uid flt g sg).1 with m | ⟨k, l⟩
    · rw [hresp] at hi
      simp [ViewSetListResp.issuesOf] at hi
    · rw [hresp] at hi
      simp only [ViewSetListResp.issuesOf] at hi
      have hl := viewSetList_page_eq store slug pid uid flt g sg k l hresp
      rw [if_pos hR] at hl
      subst hl
      exact beq_iff_eq.mp (List.mem_filter.mp hi).2
  · intro hR k l hpage
    have hl := viewSetList_page_eq store slug pid uid flt g sg k l hpage
    rwa [if_neg (by simp [hR])] at hl

/-- Witness for role5_membership_narrows_list: in the concrete store,
user 7 holds the active role-5 membership of project 1 and the returned
page holds only issues created by user 7, while user 9 holds none and
receives the un-narrowed queryset. -/
theorem role5_membership_narrows_list_witness :
    demoIssueA.createdBy = 7 ∧
    [demoIssueA, demoIssueB] = (viewSetQueryset demoStore "w" 1).filter allIssues := by
  constructor
  · exact (role5_membership_narrows_list demoStore "w" 1 7 allIssues "" "").1
      (by decide) demoIssueA (by decide)
  · exact (role5_membership_narrows_list demoStore "w" 1 9 allIssues "" "").2
      (by decide) PaginatorKind.flat [demoIssueA, demoIssueB] (by decide)

/-- C2: in IssueViewSet.list, supplying equal truthy group_by and
sub_group_by parameters yields the 400 validation error with zero
paginate calls issued, for every store and every other parameter; when
group_by or sub_group_by is falsy (absent, or the empty string, which
Python truthiness treats as absent) the error is never raised. -/
theorem group_by_equals_sub_group_by_rejected (store : Store) (slug : String)
    (pid uid : Nat) (flt : IssueRec → Bool) (g sg : String) :
    (g ≠ "" → sg ≠ "" → g = sg →
      viewSetList store slug pid uid flt g sg = (.badRequest groupSameError, 0)) ∧
    (g = "" ∨ sg = "" →
      (viewSetList store slug pid uid flt g sg).1.isError = false) :=
  ⟨fun hg hsg heq =>
      viewSetList_same_group_error store slug pid uid flt g sg hg hsg heq,
   fun h => viewSetList_no_group_no_error store slug pid uid flt g sg h⟩

/-- Witness for group_by_equals_sub_group_by_rejected: grouping and
sub-grouping by the same field is rejected with no paginate call, and
grouping without sub-grouping is served. -/
theorem group_by_equals_sub_group_by_rejected_witness :
    viewSetList demoStore "w" 1 7 allIssues "state" "state"
        = (.badRequest groupSameError, 0) ∧
    (viewSetList demoStore "w" 1 7 allIssues "state" "").1.isError = false := by
  constructor
  · exact (group_by_equals_sub_group_by_rejected demoStore "w" 1 7 allIssues
      "state" "state").1 (by decide) (by decide) rfl
  · exact (group_by_equals_sub_group_by_rejected demoStore "w" 1 7 allIssues
      "state" "").2 (Or.inr rfl)

/-- Counterexample for C3: in the concrete store module 1 is archived
(archived_at is set) yet the module_ids annotation of partial_update
still returns it for issue "a"; the retrieve and paginated-list
annotation of the same store drops it.  The annotating operations are
therefore not uniformly filtered to non-archived modules. -/
theorem annotation_filter_counterexample :
    moduleIdsUpdateAgg demoStore "a" = [1, 2] ∧
    demoStore.modules.any (fun md => md.id == 1 && md.archivedAt.isNone) = false ∧
    moduleIdsActiveAgg demoStore "a" = [2] := by decide

/-- C3 (amended): the module_ids annotations of retrieve and of the
paginated sync list return only non-archived modules, and the
assignee_ids annotation shared by retrieve, partial_update and the
paginated sync list returns only users with an active project
membership; the module_ids annotation of partial_update, however,
returns every linked module, archived or not. -/
theorem annotation_filters_amended (store : Store) (issueId : String) :
    (∀ m ∈ moduleIdsActiveAgg store issueId,
      ∃ md ∈ store.modules, md.id = m ∧ md.archivedAt = none) ∧
    (∀ a ∈ assigneeIdsAgg store issueId,
      ∃ pm ∈ store.members, pm.memberId = a ∧ pm.isActive = true) ∧
    (∀ l ∈ store.issueModules, l.issueId = issueId →
      l.moduleId ∈ moduleIdsUpdateAgg store issueId) := by
  refine ⟨?_, ?_, ?_⟩
  · intro m hm
    simp only [moduleIdsActiveAgg, List.mem_dedup, List.mem_map,
      List.mem_filter, Bool.and_eq_true, List.any_eq_true, beq_iff_eq] at hm
    obtain ⟨l, ⟨_, _, md, hmd, hid, harch⟩, hml⟩ := hm
    exact ⟨md, hmd, by rw [hid, hml], Option.isNone_iff_eq_none.mp harch⟩
  · intro a ha
    simp only [assigneeIdsAgg, List.mem_dedup, List.mem_map,
      List.mem_filter, Bool.and_eq_true, List.any_eq_true, beq_iff_eq] at ha
    obtain ⟨l, ⟨_, _, pm, hpm, hid, hact⟩, hal⟩ := ha
    exact ⟨pm, hpm, by rw [hid, hal], hact⟩
  · intro l hl hiss
    simp only [moduleIdsUpdateAgg, List.mem_dedup, List.mem_map, List.mem_filter]
    exact ⟨l, ⟨hl, by simp [hiss]⟩, rfl⟩

/-- Witness for annotation_filters_amended at the concrete store:
module 2 is returned by the retrieve annotation and is non-archived,
assignee 7 is an active member, and the archived module 1 is returned
by the partial_update annotation. -/
theorem annotation_filters_amended_witness :
    (∃ md ∈ demoStore.modules, md.id = 2 ∧ md.archivedAt = none) ∧
    (∃ pm ∈ demoStore.members, pm.memberId = 7 ∧ pm.isActive = true) ∧
    1 ∈ moduleIdsUpdateAgg demoStore "a" := by
  refine ⟨?_, ?_, ?_⟩
  · exact (annotation_filters_amended demoStore "a").1 2 (by decide)
  · exact (annotation_filters_amended demoStore "a").2.1 7 (by decide)
  · exact (annotation_filters_amended demoStore "a").2.2 ⟨"a", 1⟩ (by decide) rfl

theorem mem_issue_objects_deletedAt {issues : List IssueRec} {i : IssueRec}
    (h : i ∈ issue_objects issues) : i.deletedAt = none :=
  Option.isNone_iff_eq_none.mp (List.mem_filter.mp h).2

theorem mem_defaultObjects_deletedAt {issues : List IssueRec} {i : IssueRec}
    (h : i ∈ defaultObjects issues) : i.deletedAt = none :=
  Option.isNone_iff_eq_none.mp (List.mem_filter.mp h).2

theorem mem_viewSetQueryset (store : Store) (slug : String) (pid : Nat) :
    ∀ i ∈ viewSetQueryset store slug pid, i ∈ issue_objects store.issues := by
  intro i hi
  exact (List.mem_filter.mp (List.mem_filter.mp hi).1).1

theorem issuesOf_subset_queryset (store : Store) (slug : String)
    (pid uid : Nat) (flt : IssueRec → Bool) (g sg : String) :
    ∀ i ∈ (viewSetList store slug pid uid flt g sg).1.issuesOf,
      i ∈ viewSetQueryset store slug pid := by
  intro i hi
  rcases hresp : (viewSetList store slug pid uid flt g sg).1 with m | ⟨k, l⟩
  · rw [hresp] at hi
    simp [ViewSetListResp.issuesOf] at hi
  · rw [hresp] at hi
    simp only [ViewSetListResp.issuesOf] at hi
    have hl := viewSetList_page_eq store slug pid uid flt g sg k l hresp
    split_ifs at hl <;> subst hl
    · exact (List.mem_filter.mp (List.mem_filter.mp hi).1).1
    · exact (List.mem_filter.mp hi).1

/-- C4: every read or delete query of the handlers excludes soft-deleted
issues — the ID-scoped list, the IssueViewSet list page, the pk lookup
used by retrieve and partial_update, the paginated sync queryset, the
bulk-delete target queryset, and the lookup resolving the target of
destroy all produce only issues with deleted_at null. -/
theorem soft_deleted_rows_excluded (store : Store) (slug : String)
    (pid uid : Nat) (flt : IssueRec → Bool) (issuesParam : Option String)
    (g sg : String) (ids : List String) (updatedSince : Option Nat)
    (pk : String) :
    (∀ l, issueListGet store slug pid issuesParam flt = .ok l →
      ∀ i ∈ l, i.deletedAt = none) ∧
    (∀ i ∈ (viewSetList store slug pid uid flt g sg).1.issuesOf,
      i.deletedAt = none) ∧
    (∀ i, viewSetPkLookup store slug pid pk = some i → i.deletedAt = none) ∧
    (∀ i ∈ paginatedSyncQueryset store slug pid updatedSince,
      i.deletedAt = none) ∧
    (∀ i ∈ bulkDeleteQueryset store slug pid ids, i.deletedAt = none) ∧
    (∀ i, destroyLookup store slug pid pk = some i → i.deletedAt = none) := by
  refine ⟨?_, ?_, ?_, ?_, ?_, ?_⟩
  · intro l hl i hi
    cases issuesParam with
    | none => simp [issueListGet] at hl
    | some s =>
      simp only [issueListGet] at hl
      split at hl
      · cases hl
      · cases hl
        exact mem_issue_objects_deletedAt
          (List.mem_filter.mp (List.mem_filter.mp hi).1).1
  · intro i hi
    exact mem_issue_objects_deletedAt
      (mem_viewSetQueryset store slug pid i
        (issuesOf_subset_queryset store slug pid uid flt g sg i hi))
  · intro i hi
    exact mem_issue_objects_deletedAt
      (mem_viewSetQueryset store slug pid i (List.mem_of_find?_eq_some hi))
  · intro i hi
    have hmem : i ∈ projectIssuesQs store slug pid := by
      cases updatedSince with
      | none =>
        simp only [paginatedSyncQueryset] at hi
        exact (List.mem_insertionSort updLe).mp hi
      | some t =>
        simp only [paginatedSyncQueryset] at hi
        exact (List.mem_insertionSort updLe).mp (List.mem_filter.mp hi).1
    exact mem_issue_objects_deletedAt (List.mem_filter.mp hmem).1
  · intro i hi
    exact mem_issue_objects_deletedAt (List.mem_filter.mp hi).1
  · intro i hi
    exact mem_defaultObjects_deletedAt (List.mem_of_find?_eq_some hi)

/-- Witness for soft_deleted_rows_excluded at the concrete store, whose
issue "d" is soft-deleted: the issues served by the ID-scoped list, the
viewset list page and the destroy lookup all carry deleted_at null. -/
theorem soft_deleted_rows_excluded_witness :
    demoIssueA.deletedAt = none ∧ demoIssueOther.deletedAt = none := by
  constructor
  · exact (soft_deleted_rows_excluded demoStore "w" 1 7 allIssues
      (some "a,d") "" "" ["d", "a"] none "a").1 [demoIssueA] (by decide)
      demoIssueA (by decide)
  · exact (soft_deleted_rows_excluded demoStore "w" 2 7 allIssues
      none "" "" [] none "o").2.2.2.2.2 demoIssueOther (by decide)

theorem length_filter_pk_in (l : List IssueRec) (ids : List String)
    (p : IssueRec → Bool)
    (hl : (l.map IssueRec.id).Nodup) (hids : ids.Nodup) :
    (l.filter (fun i => p i && ids.contains i.id)).length
      = (ids.filter (fun v => l.any (fun i => p i && i.id == v))).length := by
  have hA : ((l.filter (fun i => p i && ids.contains i.id)).map IssueRec.id).Nodup :=
    List.Nodup.sublist (List.Sublist.map IssueRec.id (List.filter_sublist l)) hl
  have hB : (ids.filter (fun v => l.any (fun i => p i && i.id == v))).Nodup :=
    hids.filter _
  have hsub1 : ((l.filter (fun i => p i && ids.contains i.id)).map IssueRec.id)
      ⊆ ids.filter (fun v => l.any (fun i => p i && i.id == v)) := by
    intro v hv
    simp only [List.mem_map, List.mem_filter, Bool.and_eq_true] at hv
    obtain ⟨i, ⟨hil, hp, hcont⟩, hveq⟩ := hv
    subst hveq
    refine List.mem_filter.mpr ⟨List.elem_iff.mp hcont, ?_⟩
    exact List.any_eq_true.mpr ⟨i, hil, by simp [hp]⟩
  have hsub2 : (ids.filter (fun v => l.any (fun i => p i && i.id == v)))
      ⊆ ((l.filter (fun i => p i && ids.contains i.id)).map IssueRec.id) := by
    intro v hv
    obtain ⟨hvids, hvany⟩ := List.mem_filter.mp hv
    obtain ⟨i, hil, hpi⟩ := List.any_eq_true.mp hvany
    rw [Bool.and_eq_true] at hpi
    obtain ⟨hp, hid⟩ := hpi
    have hid2 : i.id = v := beq_iff_eq.mp hid
    refine List.mem_map.mpr ⟨i, List.mem_filter.mpr ⟨hil, ?_⟩, hid2⟩
    rw [Bool.and_eq_true]
    refine ⟨hp, List.elem_iff.mpr ?_⟩
    rw [hid2]
    exact hvids
  have h1 := (List.subperm_of_subset hA hsub1).length_le
  have h2 := (List.subperm_of_subset hB hsub2).length_le
  rw [List.length_map] at h1 h2
  exact Nat.le_antisymm h1 h2

/-- C5: a bulk delete with a non-empty duplicate-free id list succeeds
and reports exactly the number of submitted ids that name an existing,
non-soft-deleted issue of the requested workspace and project; ids that
match nothing are ignored rather than rejected, and precisely the
matched issues disappear from the store.  Primary keys are unique, so
the store-side id list is assumed duplicate-free. -/
theorem bulk_delete_count_matches (store : Store) (slug : String) (pid : Nat)
    (issue_ids : List String)
    (hne : issue_ids ≠ [])
    (hids : issue_ids.Nodup)
    (hpk : (store.issues.map IssueRec.id).Nodup) :
    bulkDeleteRun store slug pid issue_ids =
      (.ok ((issue_ids.filter (fun v => store.issues.any (fun i =>
            i.deletedAt.isNone && i.workspaceSlug == slug
              && i.projectId == pid && i.id == v))).length),
       { store with issues := store.issues.filter (fun i =>
            !(i.deletedAt.isNone && i.workspaceSlug == slug
                && i.projectId == pid && issue_ids.contains i.id)) }) := by
  have hq : bulkDeleteQueryset store slug pid issue_ids
      = store.issues.filter (fun i =>
          (i.deletedAt.isNone && (i.workspaceSlug == slug && i.projectId == pid))
            && issue_ids.contains i.id) := by
    unfold bulkDeleteQueryset issue_objects
    rw [List.filter_filter]
    refine List.filter_congr ?_
    intro a _
    cases a.deletedAt.isNone <;> cases a.workspaceSlug == slug <;>
      cases a.projectId == pid <;> cases issue_ids.contains a.id <;> rfl
  have hcount := length_filter_pk_in store.issues issue_ids
    (fun j : IssueRec => j.deletedAt.isNone
      && (j.workspaceSlug == slug && j.projectId == pid)) hpk hids
  simp only [] at hcount
  unfold bulkDeleteRun
  rw [if_neg (by simpa [List.length_eq_zero] using hne)]
  simp only [hq]
  rw [hcount]
  simp only [Bool.and_assoc]

/-- Witness for bulk_delete_count_matches at the concrete store: of the
submitted ids, "a" matches, "d" names a soft-deleted issue, "o" names an
issue of another project and "zz" matches nothing, so the count is 1 and
only issue "a" disappears. -/
theorem bulk_delete_count_matches_witness :
    ["a", "d", "zz", "o"] ≠ ([] : List String) ∧
    bulkDeleteRun demoStore "w" 1 ["a", "d", "zz", "o"] =
      (.ok 1, { demoStore with issues := [demoIssueB, demoIssueDel, demoIssueOther] }) := by
  refine ⟨by decide, ?_⟩
  rw [bulk_delete_count_matches demoStore "w" 1 ["a", "d", "zz", "o"]
    (by decide) (by decide) (by decide)]
  decide

/-- C6: a bulk delete whose issue_ids payload is the empty list returns
the 400 validation error and deletes nothing: the store is returned
unchanged, not an empty success. -/
theorem bulk_delete_empty_ids_rejected (store : Store) (slug : String)
    (pid : Nat) :
    bulkDeleteRun store slug pid [] =
      (.badRequest "Issue IDs are required", store) := by
  simp [bulkDeleteRun]

theorem pairwise_updLe_sorted (l : List IssueRec) :
    List.Pairwise (fun a b : IssueRec => a.updatedAt ≤ b.updatedAt)
      (List.insertionSort updLe l) :=
  List.sorted_insertionSort updLe l

theorem pairwise_cross_page {l : List IssueRec}
    (hp : List.Pairwise (fun a b : IssueRec => a.updatedAt ≤ b.updatedAt) l)
    {o1 s1 o2 s2 : Nat} (h : o1 + s1 ≤ o2) :
    ∀ a ∈ syncPage l o1 s1, ∀ b ∈ syncPage l o2 s2,
      a.updatedAt ≤ b.updatedAt := by
  intro a ha b hb
  have hps : List.Pairwise (fun a b : IssueRec => a.updatedAt ≤ b.updatedAt)
      (l.take (o1 + s1) ++ l.drop (o1 + s1)) := by
    rw [List.take_append_drop]
    exact hp
  refine (List.pairwise_append.mp hps).2.2 a ?_ b ?_
  · have hpg : syncPage l o1 s1 = (l.take (o1 + s1)).drop o1 := by
      unfold syncPage
      rw [List.take_drop]
    rw [hpg] at ha
    exact List.mem_of_mem_drop ha
  · have hb2 : b ∈ l.drop o2 := List.mem_of_mem_take hb
    have hdd : l.drop o2 = (l.drop (o1 + s1)).drop (o2 - (o1 + s1)) := by
      rw [List.drop_drop]
      congr 1
      omega
    rw [hdd] at hb2
    exact List.mem_of_mem_drop hb2

/-- C7: the paginated sync queryset is ordered ascending by updated_at;
when the updated_at__gte parameter is supplied every produced issue has
updated_at at least that value; and the sort keys are monotonically
non-decreasing across pages: every item of an earlier page compares at
most equal to every item of a later page. -/
theorem paginated_sync_monotone (store : Store) (slug : String) (pid : Nat)
    (updatedSince : Option Nat) (t o1 s1 o2 s2 : Nat) :
    List.Pairwise (fun a b : IssueRec => a.updatedAt ≤ b.updatedAt)
      (paginatedSyncQueryset store slug pid updatedSince) ∧
    (∀ i ∈ paginatedSyncQueryset store slug pid (some t), t ≤ i.updatedAt) ∧
    (o1 + s1 ≤ o2 →
      ∀ a ∈ syncPage (paginatedSyncQueryset store slug pid updatedSince) o1 s1,
      ∀ b ∈ syncPage (paginatedSyncQueryset store slug pid updatedSince) o2 s2,
        a.updatedAt ≤ b.updatedAt) := by
  have hsorted : List.Pairwise (fun a b : IssueRec => a.updatedAt ≤ b.updatedAt)
      (paginatedSyncQueryset store slug pid updatedSince) := by
    cases updatedSince with
    | none => exact pairwise_updLe_sorted (projectIssuesQs store slug pid)
    | some u =>
      exact (pairwise_updLe_sorted (projectIssuesQs store slug pid)).filter _
  refine ⟨hsorted, ?_, fun h => pairwise_cross_page hsorted h⟩
  intro i hi
  simp only [paginatedSyncQueryset] at hi
  exact of_decide_eq_true (List.mem_filter.mp hi).2

/-- Witness for paginated_sync_monotone at the concrete store: with
updated_at__gte 4 the queryset is issue "b" (updated at 5) then issue
"a" (updated at 10); both clear the bound and the one-item pages honour
the ordering. -/
theorem paginated_sync_monotone_witness :
    (4 : Nat) ≤ demoIssueB.updatedAt ∧
    demoIssueB.updatedAt ≤ demoIssueA.updatedAt := by
  constructor
  · exact (paginated_sync_monotone demoStore "w" 1 (some 4) 4 0 1 1 1).2.1
      demoIssueB (by decide)
  · exact (paginated_sync_monotone demoStore "w" 1 (some 4) 4 0 1 1 1).2.2
      (by decide) demoIssueB (by decide) demoIssueA (by decide)

/-- Counterexample for C8: with the concrete store, the request whose
issues parameter is the lone separator "," passes the presence check,
drops its two empty entries and filters with the empty id set: it
returns 200 with the empty list even though issue "a" of the project is
served when requested directly, so a parameter of only separators is an
unconditional empty match, and it does not behave like the absent
parameter, which is a 400 error. -/
theorem empty_only_ids_counterexample :
    issueListGet demoStore "w" 1 (some ",") allIssues = .ok [] ∧
    issueListGet demoStore "w" 1 (some "a") allIssues = .ok [demoIssueA] ∧
    issueListGet demoStore "w" 1 none allIssues
      = .badRequest "Issues are required" := by
  decide

/-- C8 (amended): empty-string entries of the issues parameter are
dropped before filtering, so any two truthy parameter values with the
same non-empty entries produce the same response; a parameter whose
entries are all empty strings, however, survives the presence check with
an empty id list and yields the empty-set pk__in filter, returning 200
with the empty list rather than behaving like an absent parameter. -/
theorem empty_ids_dropped_amended (store : Store) (slug : String) (pid : Nat)
    (flt : IssueRec → Bool) (s u : String)
    (hs : s ≠ "") (hu : u ≠ "")
    (h : (splitComma s).filter (fun v => v != "")
        = (splitComma u).filter (fun v => v != "")) :
    issueListGet store slug pid (some s) flt
        = issueListGet store slug pid (some u) flt ∧
    ((splitComma s).filter (fun v => v != "") = [] →
      issueListGet store slug pid (some s) flt = .ok []) := by
  constructor
  · simp only [issueListGet, if_neg hs, if_neg hu, h]
  · intro hnil
    simp only [issueListGet, if_neg hs, hnil]
    simp

/-- Witness for empty_ids_dropped_amended: inserting an extra separator
into "a,b" does not change the response, and the all-separators
parameter ",," returns the empty list. -/
theorem empty_ids_dropped_amended_witness :
    issueListGet demoStore "w" 1 (some "a,,b") allIssues
        = issueListGet demoStore "w" 1 (some "a,b") allIssues ∧
    issueListGet demoStore "w" 1 (some ",,") allIssues = .ok [] := by
  constructor
  · exact (empty_ids_dropped_amended demoStore "w" 1 allIssues "a,,b" "a,b"
      (by decide) (by decide) (by decide)).1
  · exact (empty_ids_dropped_amended demoStore "w" 1 allIssues ",," ",,"
      (by decide) (by decide) rfl).2 (by decide)

/-- C9: the display-property read never fails with a 404: for every
property table and every (user, project) pair get_or_create answers with
status 200, creating the defaulted record when none exists, and once the
record exists the operation is idempotent, returning the same record and
leaving the table untouched. -/
theorem display_property_get_total_idempotent
    (props : List IssueUserPropertyRec) (uid pid : Nat) :
    (displayPropertyGet props uid pid).httpStatus = 200 ∧
    displayPropertyGet (displayPropertyGet props uid pid).state uid pid
      = { record := (displayPropertyGet props uid pid).record,
          httpStatus := 200,
          state := (displayPropertyGet props uid pid).state } := by
  cases hf : findUserProperty props uid pid with
  | some p => simp [displayPropertyGet, hf]
  | none =>
    have hfind : findUserProperty
        (defaultIssueUserProperty uid pid :: props) uid pid
        = some (defaultIssueUserProperty uid pid) := by
      simp [findUserProperty, defaultIssueUserProperty, List.find?]
    simp [displayPropertyGet, hf, hfind]

/-- C10: the display-property patch updates only the fields present in
the payload: a field whose key is absent from request.data keeps its
stored value, the remaining fields of the record (its user and project
keys) are unchanged in every case, and every record of a different
(user, project) pair is carried into the saved table unchanged. -/
theorem display_property_patch_frame
    (props : List IssueUserPropertyRec) (uid pid : Nat)
    (payload : DisplayPatchPayload) (p p1 : IssueUserPropertyRec)
    (newProps : List IssueUserPropertyRec)
    (hfind : findUserProperty props uid pid = some p)
    (hres : displayPropertyPatch props uid pid payload = some (p1, newProps)) :
    (payload.filters = none → p1.filters = p.filters) ∧
    (payload.display_filters = none →
      p1.display_filters = p.display_filters) ∧
    (payload.display_properties = none →
      p1.display_properties = p.display_properties) ∧
    p1.userId = p.userId ∧ p1.projectId = p.projectId ∧
    (∀ q ∈ props, ¬(q.userId = uid ∧ q.projectId = pid) → q ∈ newProps) := by
  unfold displayPropertyPatch at hres
  rw [hfind] at hres
  cases hres
  refine ⟨?_, ?_, ?_, rfl, rfl, ?_⟩
  · intro h
    rw [h]
    rfl
  · intro h
    rw [h]
    rfl
  · intro h
    rw [h]
    rfl
  · intro q hq hne
    have hcond : ¬((q.userId == uid && q.projectId == pid) = true) := by
      intro hc
      rw [Bool.and_eq_true] at hc
      exact hne ⟨beq_iff_eq.mp hc.1, beq_iff_eq.mp hc.2⟩
    have hmem := List.mem_map_of_mem (fun q : IssueUserPropertyRec =>
      if q.userId == uid && q.projectId == pid then
        { p with
          filters := payload.filters.getD p.filters,
          display_filters := payload.display_filters.getD p.display_filters,
          display_properties :=
            payload.display_properties.getD p.display_properties }
      else q) hq
    simp only [] at hmem
    rw [if_neg hcond] at hmem
    exact hmem

/-- Witness for display_property_patch_frame: patching the record of
user 7 with only a filters value keeps its display_filters, and the
record of user 8 survives unchanged in the saved table. -/
theorem display_property_patch_frame_witness :
    (⟨7, 1, "newf", "df1", "dp1"⟩ : IssueUserPropertyRec).display_filters
        = (⟨7, 1, "f1", "df1", "dp1"⟩ : IssueUserPropertyRec).display_filters ∧
    (⟨8, 1, "f2", "df2", "dp2"⟩ : IssueUserPropertyRec)
        ∈ [(⟨7, 1, "newf", "df1", "dp1"⟩ : IssueUserPropertyRec),
           ⟨8, 1, "f2", "df2", "dp2"⟩] := by
  have h := display_property_patch_frame demoProps 7 1
    { filters := some "newf", display_filters := none,
      display_properties := none }
    ⟨7, 1, "f1", "df1", "dp1"⟩ ⟨7, 1, "newf", "df1", "dp1"⟩
    [⟨7, 1, "newf", "df1", "dp1"⟩, ⟨8, 1, "f2", "df2", "dp2"⟩]
    (by decide) (by decide)
  exact ⟨h.2.1 rfl, h.2.2.2.2.2 ⟨8, 1, "f2", "df2", "dp2"⟩ (by decide) (by decide)⟩
